import Mathlib

/-!
Verification development for the sqlite-mcp-server repository
(src/index.ts). We shallowly embed the request-dispatch layer of the
server: the tool-call dispatcher, the insights log, the prompt handler
and the SSE broadcast hub, and prove the testable properties stated in
the specification against this embedding.

The SQLite engine itself is an external collaborator: it is modelled as
an oracle handle (a pair of functions answering `db.all` and `db.run`
calls), and every invocation of the handle made by the dispatcher is
recorded in an explicit trace so that claims about which statements are
executed, and whether the handle is touched at all, are statable.
-/

set_option autoImplicit false

/-- JSON values as produced and consumed by the server.  Numbers are
modelled as integers (the claims never depend on float formatting);
`str`, `arr` and `obj` mirror the JavaScript value shapes. -/
inductive Json where
  | null
  | bool (b : Bool)
  | num (n : Int)
  | str (s : String)
  | arr (items : List Json)
  | obj (fields : List (String × Json))
deriving Repr

/-- One hexadecimal digit, as used by the \u00XX escapes of
`JSON.stringify`. -/
def hexDigit (n : Nat) : String :=
  if n = 0 then "0" else if n = 1 then "1" else if n = 2 then "2"
  else if n = 3 then "3" else if n = 4 then "4" else if n = 5 then "5"
  else if n = 6 then "6" else if n = 7 then "7" else if n = 8 then "8"
  else if n = 9 then "9" else if n = 10 then "a" else if n = 11 then "b"
  else if n = 12 then "c" else if n = 13 then "d" else if n = 14 then "e"
  else "f"

/-- How `JSON.stringify` escapes a single character inside a string
literal. -/
def escapeJsonChar (c : Char) : String :=
  if c = '"' then "\\\""
  else if c = '\\' then "\\\\"
  else if c = '\n' then "\\n"
  else if c = '\r' then "\\r"
  else if c = '\t' then "\\t"
  else if c.toNat = 8 then "\\b"
  else if c.toNat = 12 then "\\f"
  else if c.toNat < 32 then "\\u00" ++ hexDigit (c.toNat / 16) ++ hexDigit (c.toNat % 16)
  else String.singleton c

/-- A JSON string literal: the escaped characters wrapped in double
quotes, as `JSON.stringify` renders strings. -/
def quoteJson (s : String) : String :=
  "\"" ++ String.join (s.data.map escapeJsonChar) ++ "\""

/-- The indentation prefix used by `JSON.stringify(v, null, 2)` at
nesting level `lvl`: two spaces per level. -/
def indentStr (lvl : Nat) : String :=
  String.mk (List.replicate (2 * lvl) ' ')

mutual

/-- `JSON.stringify(v, null, 2)` (the pretty form used by the tool
handlers), rendered at nesting level `lvl`. -/
def renderPretty (lvl : Nat) : Json → String
  | .null => "null"
  | .bool true => "true"
  | .bool false => "false"
  | .num n => toString n
  | .str s => quoteJson s
  | .arr [] => "[]"
  | .arr (x :: xs) =>
      "[\n" ++ String.intercalate ",\n" (renderPrettyItems (lvl + 1) (x :: xs))
        ++ "\n" ++ indentStr lvl ++ "]"
  | .obj [] => "\x7b\x7d"
  | .obj (f :: fs) =>
      "\x7b\n" ++ String.intercalate ",\n" (renderPrettyFields (lvl + 1) (f :: fs))
        ++ "\n" ++ indentStr lvl ++ "\x7d"

/-- Renders the elements of a JSON array for the pretty form, one
indented line each. -/
def renderPrettyItems (lvl : Nat) : List Json → List String
  | [] => []
  | x :: xs => (indentStr lvl ++ renderPretty lvl x) :: renderPrettyItems lvl xs

/-- Renders the fields of a JSON object for the pretty form, one
indented `"key": value` line each. -/
def renderPrettyFields (lvl : Nat) : List (String × Json) → List String
  | [] => []
  | (k, v) :: fs =>
      (indentStr lvl ++ quoteJson k ++ ": " ++ renderPretty lvl v)
        :: renderPrettyFields lvl fs

end

/-- `JSON.stringify(v, null, 2)`: the pretty serialization the tool
handlers wrap in their text blocks. -/
def Json.stringifyPretty (v : Json) : String := renderPretty 0 v

mutual

/-- `JSON.stringify(v)` (compact, no whitespace), used by the SSE
broadcast path. -/
def renderCompact : Json → String
  | .null => "null"
  | .bool true => "true"
  | .bool false => "false"
  | .num n => toString n
  | .str s => quoteJson s
  | .arr xs => "[" ++ String.intercalate "," (renderCompactItems xs) ++ "]"
  | .obj fs => "\x7b" ++ String.intercalate "," (renderCompactFields fs) ++ "\x7d"

/-- Renders the elements of a JSON array for the compact form. -/
def renderCompactItems : List Json → List String
  | [] => []
  | x :: xs => renderCompact x :: renderCompactItems xs

/-- Renders the fields of a JSON object for the compact form. -/
def renderCompactFields : List (String × Json) → List String
  | [] => []
  | (k, v) :: fs => (quoteJson k ++ ":" ++ renderCompact v) :: renderCompactFields fs

end

/-- `JSON.stringify(v)` with no indent argument. -/
def Json.stringifyCompact (v : Json) : String := renderCompact v

/-- JavaScript property access `o.k` on a JSON value: `some v` when `o`
is an object with field `k`, `none` (JavaScript `undefined`)
otherwise. -/
def jsGetField (j : Json) (k : String) : Option Json :=
  match j with
  | .obj fs => fs.lookup k
  | _ => none

/-- The whitespace set recognised by JavaScript `String.prototype.trim`
(ASCII whitespace, NBSP, the Unicode space separators, the line
separators and the BOM). -/
def jsIsSpace (c : Char) : Bool :=
  let n := c.toNat
  (9 ≤ n && n ≤ 13) || n = 32 || n = 160 || n = 0x1680 ||
    (0x2000 ≤ n && n ≤ 0x200A) || n = 0x2028 || n = 0x2029 ||
    n = 0x202F || n = 0x205F || n = 0x3000 || n = 0xFEFF

/-- JavaScript `String.prototype.trim`: strips leading and trailing
whitespace. -/
def jsTrim (s : String) : String :=
  String.mk (((s.data.dropWhile jsIsSpace).reverse.dropWhile jsIsSpace).reverse)

/-- JavaScript `String.prototype.toLowerCase`, restricted to the simple
ASCII case mapping (exact on the ASCII statement keywords the policy
checks compare against). -/
def jsToLower (s : String) : String :=
  String.mk (s.data.map Char.toLower)

/-- JavaScript `String.prototype.startsWith`. -/
def jsStartsWith (s pat : String) : Bool :=
  pat.data.isPrefixOf s.data

/-- The failure outcomes a tool-call dispatch can surface.
`invalidRequest` and `invalidParams` are `McpError`s thrown with
`ErrorCode.InvalidRequest` / `ErrorCode.InvalidParams` (the policy
violations use the latter); `methodNotFound` is the `McpError` thrown
for an unknown tool name; `typeError` is a JavaScript `TypeError`
raised by accessing a method of `undefined` or passing `undefined`
where the sqlite3 binding requires a string (surfaced by the SDK as an
internal error, not as a protocol invalid-request); `execError` wraps a
failure reported by the database handle. -/
inductive DispatchError where
  | invalidRequest (msg : String)
  | invalidParams (msg : String)
  | methodNotFound (msg : String)
  | typeError
  | execError (msg : String)
deriving Repr, DecidableEq

/-- One block of a result envelope; the server only ever produces
`type: "text"` blocks. -/
inductive ContentBlock where
  | text (s : String)
deriving Repr, DecidableEq

/-- The result envelope: the ordered `content` array of a successful
tool call. -/
abbrev ResultEnvelope := List ContentBlock

/-- The argument mapping of a tool-call request, restricted to the
fields the handlers destructure.  `none` models a field that is absent
(JavaScript `undefined` after the unchecked cast). -/
structure ToolArgs where
  query : Option String := none
  table_name : Option String := none
  insight : Option String := none
deriving Repr, DecidableEq

/-- A recorded invocation of the database handle: `all` is the
multi-row fetch primitive (`db.all`), `run` the mutating primitive
(`db.run`), each carrying the exact statement text passed. -/
inductive DbCall where
  | all (sql : String)
  | run (sql : String)
deriving Repr, DecidableEq

/-- The database handle, an external collaborator, as a deterministic
oracle: `all` answers a multi-row fetch with a list of row objects (or
an engine error); `run` answers a mutating statement with unit on
success (or an engine error), because node-sqlite3 invokes the `run`
callback as `callback(err)` only — the `changes` count is placed on
the callback `this`, which `util.promisify` discards — so the awaited
promise resolves `undefined` on every successful statement.  The
oracle encodes the database content at the time of the call; a
mutating statement is modelled as moving to a different handle
value. -/
structure DbHandle where
  all : String → Except String (List Json)
  run : String → Except String Unit

/-- The in-process mutable state touched by dispatch: the append-only
insights list (entries are `Option String` because the handler pushes
the destructured argument unchecked, so an absent field appends a
JavaScript `undefined`), plus the instrumentation trace of every
database-handle invocation made. -/
structure ServerState where
  insights : List (Option String) := []
  trace : List DbCall := []
deriving Repr, DecidableEq

/-- The fixed introspection statement `list_tables` executes. -/
def listTablesSql : String := "SELECT name FROM sqlite_master WHERE type=\x27table\x27"

/-- The introspection statement `describe_table` builds by template
interpolation of the table name. -/
def describeTableSql (table_name : String) : String :=
  "PRAGMA table_info(" ++ table_name ++ ")"

/-- The `CallToolRequestSchema` handler of `setupToolHandlers`
(src/index.ts): dispatches a tool call by name against the database
handle `db` and the server state `st`, returning the outcome and the
updated state.  Each `db.all` / `db.run` invocation is appended to the
trace.  In the `write_query` branch a successful run resolves
`undefined` (see `DbHandle`), so the subsequent `result.changes`
property access throws a TypeError before the affected-rows block is
built. -/
def dispatch (db : DbHandle) (name : String) (args : ToolArgs)
    (st : ServerState) : Except DispatchError ResultEnvelope × ServerState :=
  if name = "read_query" then
    match args.query with
    | none => (.error .typeError, st)
    | some q =>
      if !(jsStartsWith (jsTrim (jsToLower q)) "select") then
        (.error (.invalidParams "Only SELECT queries are allowed"), st)
      else
        let st1 := { st with trace := st.trace ++ [.all q] }
        match db.all q with
        | .error e => (.error (.execError e), st1)
        | .ok rows =>
            (.ok [.text (Json.stringifyPretty (Json.arr rows))], st1)
  else if name = "write_query" then
    match args.query with
    | none => (.error .typeError, st)
    | some q =>
      let st1 := { st with trace := st.trace ++ [.run q] }
      match db.run q with
      | .error e => (.error (.execError e), st1)
      | .ok _ => (.error .typeError, st1)
  else if name = "create_table" then
    match args.query with
    | none => (.error .typeError, st)
    | some q =>
      if !(jsStartsWith (jsTrim (jsToLower q)) "create table") then
        (.error (.invalidParams "Query must be a CREATE TABLE statement"), st)
      else
        let st1 := { st with trace := st.trace ++ [.run q] }
        match db.run q with
        | .error e => (.error (.execError e), st1)
        | .ok _ => (.ok [.text "Table created successfully"], st1)
  else if name = "list_tables" then
    let st1 := { st with trace := st.trace ++ [.all listTablesSql] }
    match db.all listTablesSql with
    | .error e => (.error (.execError e), st1)
    | .ok rows =>
        let names := rows.map (fun r => (jsGetField r "name").getD Json.null)
        (.ok [.text (Json.stringifyPretty (Json.arr names))], st1)
  else if name = "describe_table" then
    let t := match args.table_name with
      | some s => s
      | none => "undefined"
    let st1 := { st with trace := st.trace ++ [.all (describeTableSql t)] }
    match db.all (describeTableSql t) with
    | .error e => (.error (.execError e), st1)
    | .ok rows =>
        (.ok [.text (Json.stringifyPretty (Json.arr rows))], st1)
  else if name = "append_insight" then
    (.ok [.text "Insight added successfully"],
      { st with insights := st.insights ++ [args.insight] })
  else
    (.error (.methodNotFound ("Unknown tool: " ++ name)), st)

/-- `this.insights.join` with separator `"\n\n"`: JavaScript `join`
renders an `undefined` entry as the empty string. -/
def renderInsights (xs : List (Option String)) : String :=
  String.intercalate "\n\n" (xs.map (fun o => o.getD ""))

/-- One `contents` entry of a resource read: uri, mime type, text. -/
structure ResourceContent where
  uri : String
  mimeType : String
  text : String
deriving Repr, DecidableEq

/-- The `ReadResourceRequestSchema` handler of `setupResourceHandlers`:
only `memo://insights` exists, and its text is the freshly rendered
insights list. -/
def readResource (uri : String) (st : ServerState) :
    Except DispatchError (List ResourceContent) :=
  if uri ≠ "memo://insights" then
    .error (.invalidRequest "Resource not found")
  else
    .ok [{ uri := uri, mimeType := "text/plain", text := renderInsights st.insights }]

/-- The `PROMPT_TEMPLATE` constant of src/index.ts. -/
def PROMPT_TEMPLATE : String :=
  "\nOh, Hey there! I see you\x27ve chosen the topic \x7btopic\x7d. Let\x27s get started! 🚀\n\nI\x27ll help you create a comprehensive business scenario using our SQLite database. We\x27ll:\n1. Set up relevant database tables\n2. Populate them with sample data\n3. Run some insightful queries\n4. Generate business insights\n5. Create a dashboard\n"

/-- JavaScript `String.prototype.replace(pat, repl)` with a string
pattern: replaces only the first occurrence, the identity when the
pattern does not occur. -/
def jsReplaceFirst (s pat repl : String) : String :=
  match s.splitOn pat with
  | [] => s
  | [_] => s
  | x :: y :: rest => x ++ repl ++ String.intercalate pat (y :: rest)

/-- A rendered prompt: the description plus the single user message
text. -/
structure PromptResult where
  description : String
  messageText : String
deriving Repr, DecidableEq

/-- The `GetPromptRequestSchema` handler of `setupPromptHandlers`.
`topic = none` models an absent argument (or an absent arguments
object); the handler gates on JavaScript truthiness
(`!request.params.arguments?.topic`), so the empty string takes the
same missing-argument branch. -/
def getPrompt (name : String) (topic : Option String) :
    Except DispatchError PromptResult :=
  if name ≠ "mcp-demo" then
    .error (.invalidRequest "Unknown prompt")
  else
    match topic with
    | none => .error (.invalidRequest "Missing required argument: topic")
    | some t =>
      if t = "" then
        .error (.invalidRequest "Missing required argument: topic")
      else
        .ok { description := "Demo template for " ++ t,
              messageText := (jsReplaceFirst PROMPT_TEMPLATE "\x7btopic\x7d" t).trim }

/-- The initial ping frame written to a freshly connected SSE client. -/
def handshakeFrame : String := "event: ping\ndata: connected\n\n"

/-- The SSE frame the per-client `messageListener` writes for a
broadcast message: `data: ` followed by the compact JSON serialization
and a blank line. -/
def sseFrame (m : Json) : String :=
  "data: " ++ Json.stringifyCompact m ++ "\n\n"

/-- One attached SSE listener: its identity (attachment counter) and
the ordered list of frames written to its response stream. -/
structure Listener where
  id : Nat
  out : List String
deriving Repr, DecidableEq

/-- The broadcast hub: the `EventEmitter` with its listeners for the
`message` event, kept in attachment order, plus a fresh-id counter. -/
structure Hub where
  nextId : Nat := 0
  listeners : List Listener := []
deriving Repr, DecidableEq

/-- The `/sse` route handler: registers a new listener whose stream
already carries the initial ping frame.  Returns the new hub and the
listener id. -/
def Hub.attach (h : Hub) : Hub × Nat :=
  ({ nextId := h.nextId + 1,
     listeners := h.listeners ++ [{ id := h.nextId, out := [handshakeFrame] }] },
   h.nextId)

/-- `eventEmitter.emit` iterating over the registered listeners in
order: each listener writes its SSE frame for `m`, and the delivery is
recorded in the returned log in call order. -/
def deliverAll (m : Json) : List Listener → List Listener × List (Nat × Json)
  | [] => ([], [])
  | l :: rest =>
      let r := deliverAll m rest
      ({ l with out := l.out ++ [sseFrame m] } :: r.1, (l.id, m) :: r.2)

/-- The `POST /messages` handler body on a well-formed message:
`this.eventEmitter.emit("message", message)` fans the message out to
every currently attached listener.  Returns the updated hub and the
delivery log. -/
def Hub.publish (h : Hub) (m : Json) : Hub × List (Nat × Json) :=
  let r := deliverAll m h.listeners
  ({ h with listeners := r.1 }, r.2)

/-- The `req.on("close")` handler: `eventEmitter.off` detaches the
listener registered for this connection. -/
def Hub.detach (h : Hub) (i : Nat) : Hub :=
  { h with listeners := h.listeners.filter (fun l => l.id ≠ i) }

/-- A concrete handle for witnesses: an empty database whose fetches
return no rows and whose mutations report no changes count. -/
def dbEmpty : DbHandle :=
  { all := fun _ => .ok [], run := fun _ => .ok () }

/-- The server state at process start: no insights, no database calls
made. -/
def initState : ServerState := {}

/-- The six names of the operation catalog, as matched by the
dispatcher switch. -/
def catalogNames : List String :=
  ["read_query", "write_query", "create_table", "list_tables",
   "describe_table", "append_insight"]

/-- A sequence of `append_insight` dispatches, one per entry of `xs`,
threading the server state. -/
def appendInsightSeq (db : DbHandle) (xs : List String) (st : ServerState) : ServerState :=
  xs.foldl (fun s x => (dispatch db "append_insight" { insight := some x } s).2) st

/-- Helper: an `append_insight` sequence appends exactly its arguments,
in order, to the insights list. -/
theorem appendInsightSeq_insights (db : DbHandle) (xs : List String) (st : ServerState) :
    (appendInsightSeq db xs st).insights = st.insights ++ xs.map some := by
  induction xs generalizing st with
  | nil => simp [appendInsightSeq]
  | cons x rest ih =>
      simp only [appendInsightSeq, List.foldl_cons] at *
      rw [show (dispatch db "append_insight" { insight := some x } st).2
            = { st with insights := st.insights ++ [some x] } from by simp [dispatch]]
      rw [ih]
      simp

/-- Helper: a broadcast data frame never coincides with the initial
ping frame (their first characters differ). -/
theorem sseFrame_ne_handshakeFrame (m : Json) : sseFrame m ≠ handshakeFrame := by
  intro heq
  have hd : (sseFrame m).data.head? = handshakeFrame.data.head? := by rw [heq]
  have h1 : (sseFrame m).data.head? = some 'd' := by
    simp [sseFrame, String.data_append]
  have h2 : handshakeFrame.data.head? = some 'e' := rfl
  rw [h1, h2] at hd
  simp at hd

/-- Helper: the emitter loop delivers one frame to every listener, in
list order, and logs the deliveries in the same order. -/
theorem deliverAll_eq (m : Json) (ls : List Listener) :
    deliverAll m ls
      = (ls.map (fun l => { l with out := l.out ++ [sseFrame m] }),
         ls.map (fun l => (l.id, m))) := by
  induction ls with
  | nil => rfl
  | cons l rest ih => simp [deliverAll, ih]

/-- Claim C1 (counterexample): dispatching `append_insight` with the
required `insight` field absent does not fail with InvalidArguments; it
succeeds outright, returning the success text block and appending an
undefined entry to the insights log. -/
theorem missing_insight_dispatch_succeeds :
    dispatch dbEmpty "append_insight" {} initState
      = (.ok [.text "Insight added successfully"],
         { insights := [none], trace := [] }) := by
  simp [dispatch, initState]

/-- Claim C1 (amended): the dispatcher performs no required-field
validation.  With the required field absent, `read_query`,
`write_query` and `create_table` fail with a JavaScript TypeError (not
an invalid-request protocol error), `describe_table` interpolates the
text `undefined` and executes the introspection statement anyway, and
`append_insight` succeeds, appending an undefined entry. -/
theorem missing_required_field_behavior (db : DbHandle) (st : ServerState) :
    (dispatch db "read_query" {} st).1 = .error .typeError
  ∧ (dispatch db "write_query" {} st).1 = .error .typeError
  ∧ (dispatch db "create_table" {} st).1 = .error .typeError
  ∧ (dispatch db "describe_table" {} st).2.trace
        = st.trace ++ [.all "PRAGMA table_info(undefined)"]
  ∧ dispatch db "append_insight" {} st
        = (.ok [.text "Insight added successfully"],
           { st with insights := st.insights ++ [none] }) := by
  refine ⟨by simp [dispatch], by simp [dispatch], by simp [dispatch], ?_, by simp [dispatch]⟩
  cases hall : db.all "PRAGMA table_info(undefined)" <;>
    simp [dispatch, describeTableSql, hall]

/-- Claim C2: `read_query` fails with PolicyViolation (an
invalid-params error) exactly when the query, lowercased and trimmed,
does not begin with `select`; when it does, and the handle answers the
fetch, the result is one text block holding the pretty-printed JSON
array of row objects. -/
theorem read_query_policy (db : DbHandle) (st : ServerState) (q : String) :
    ((∃ msg, (dispatch db "read_query" { query := some q } st).1
        = .error (.invalidParams msg))
      ↔ jsStartsWith (jsTrim (jsToLower q)) "select" = false)
  ∧ (∀ rows, jsStartsWith (jsTrim (jsToLower q)) "select" = true →
      db.all q = .ok rows →
      (dispatch db "read_query" { query := some q } st).1
        = .ok [.text (Json.stringifyPretty (Json.arr rows))]) := by
  constructor
  · cases hpol : jsStartsWith (jsTrim (jsToLower q)) "select" with
    | false =>
        simp only [dispatch, hpol]
        simp
    | true =>
        simp only [dispatch, hpol]
        cases hall : db.all q <;> simp [hall]
  · intro rows hpol hall
    simp [dispatch, hpol, hall]

/-- Claim C2 (witness): a non-SELECT statement is rejected as a policy
violation, and a SELECT against the empty database yields the empty
JSON array block. -/
theorem read_query_policy_witness :
    (∃ msg, (dispatch dbEmpty "read_query" { query := some "DROP TABLE t" } initState).1
        = .error (.invalidParams msg))
  ∧ (dispatch dbEmpty "read_query" { query := some "  SELECT 1" } initState).1
      = .ok [.text (Json.stringifyPretty (Json.arr []))] :=
  ⟨(read_query_policy dbEmpty initState "DROP TABLE t").1.mpr (by decide),
   (read_query_policy dbEmpty initState "  SELECT 1").2 [] (by decide) rfl⟩

/-- Claim C3: `create_table` fails with PolicyViolation exactly when
the query, lowercased and trimmed, does not begin with `create table`;
when it does, and the handle accepts the statement, the result is
exactly one text block reading `Table created successfully`. -/
theorem create_table_policy (db : DbHandle) (st : ServerState) (q : String) :
    ((∃ msg, (dispatch db "create_table" { query := some q } st).1
        = .error (.invalidParams msg))
      ↔ jsStartsWith (jsTrim (jsToLower q)) "create table" = false)
  ∧ (∀ changes, jsStartsWith (jsTrim (jsToLower q)) "create table" = true →
      db.run q = .ok changes →
      (dispatch db "create_table" { query := some q } st).1
        = .ok [.text "Table created successfully"]) := by
  constructor
  · cases hpol : jsStartsWith (jsTrim (jsToLower q)) "create table" with
    | false =>
        simp only [dispatch, hpol]
        simp
    | true =>
        simp only [dispatch, hpol]
        cases hrun : db.run q <;> simp [hrun]
  · intro changes hpol hrun
    simp [dispatch, hpol, hrun]

/-- Claim C3 (witness): a SELECT offered to `create_table` is rejected
as a policy violation, and a CREATE TABLE statement accepted by the
handle yields the literal success block. -/
theorem create_table_policy_witness :
    (∃ msg, (dispatch dbEmpty "create_table" { query := some "SELECT 1" } initState).1
        = .error (.invalidParams msg))
  ∧ (dispatch dbEmpty "create_table" { query := some "CREATE TABLE t(id INTEGER)" } initState).1
      = .ok [.text "Table created successfully"] :=
  ⟨(create_table_policy dbEmpty initState "SELECT 1").1.mpr (by decide),
   (create_table_policy dbEmpty initState "CREATE TABLE t(id INTEGER)").2 () (by decide) rfl⟩

/-- Claim C4 (code-bug evaluation): `write_query` indeed applies no
statement-kind restriction — it never fails with a policy violation —
and passes the statement to the mutate primitive unchanged; but on a
statement the handle accepts, the dispatch fails with a TypeError
instead of returning the claimed `affected_rows` block, because the
promisified `db.run` resolves `undefined` and `result.changes` is then
read off it. -/
theorem write_query_dispatch_behavior (db : DbHandle) (st : ServerState) (q : String) :
    (∀ msg, (dispatch db "write_query" { query := some q } st).1
        ≠ .error (.invalidParams msg))
  ∧ (dispatch db "write_query" { query := some q } st).2.trace
        = st.trace ++ [.run q]
  ∧ (db.run q = .ok () →
      (dispatch db "write_query" { query := some q } st).1
        = .error .typeError) := by
  refine ⟨?_, ?_, ?_⟩
  · intro msg
    cases hrun : db.run q <;> simp [dispatch, hrun]
  · cases hrun : db.run q <;> simp [dispatch, hrun]
  · intro hrun
    simp [dispatch, hrun]

/-- Claim C4 (witness): an INSERT passed to `write_query` executes with
no policy check, and its successful run ends in the TypeError crash,
never in an affected-rows block. -/
theorem write_query_dispatch_behavior_witness :
    (dispatch dbEmpty "write_query" { query := some "INSERT INTO t(v) VALUES (1)" } initState).1
      = .error .typeError :=
  (write_query_dispatch_behavior dbEmpty initState "INSERT INTO t(v) VALUES (1)").2.2 rfl

/-- Claim C5: a name outside the six-entry catalog is rejected with the
unknown-tool protocol error, and the server state — the insights log
and the database-call trace — is returned exactly as it was. -/
theorem unknown_tool_rejected (db : DbHandle) (st : ServerState) (args : ToolArgs)
    (n : String) (h : n ∉ catalogNames) :
    dispatch db n args st
      = (.error (.methodNotFound ("Unknown tool: " ++ n)), st) := by
  simp only [catalogNames, List.mem_cons, List.not_mem_nil, or_false, not_or] at h
  obtain ⟨h1, h2, h3, h4, h5, h6⟩ := h
  simp [dispatch, h1, h2, h3, h4, h5, h6]

/-- Claim C5 (witness): dispatching the unknown name `drop_table`
fails with the unknown-tool error and leaves the initial state
untouched. -/
theorem unknown_tool_rejected_witness :
    dispatch dbEmpty "drop_table" { query := some "DROP TABLE t" } initState
      = (.error (.methodNotFound ("Unknown tool: " ++ "drop_table")), initState) :=
  unknown_tool_rejected dbEmpty initState { query := some "DROP TABLE t" }
    "drop_table" (by decide)

/-- Claim C6: reading the insights resource after a sequence of
`append_insight` dispatches yields the appended strings in insertion
order, blank-line separated (the empty string for the empty
sequence). -/
theorem insights_roundtrip (db : DbHandle) (xs : List String) (st : ServerState)
    (h : st.insights = []) :
    readResource "memo://insights" (appendInsightSeq db xs st)
      = .ok [{ uri := "memo://insights", mimeType := "text/plain",
               text := String.intercalate "\n\n" xs }] := by
  have hins := appendInsightSeq_insights db xs st
  rw [h] at hins
  have hmap : List.map ((fun (o : Option String) => o.getD "") ∘ some) xs = xs := by
    simp [Function.comp_def]
  simp [readResource, hins, renderInsights, hmap]

/-- Claim C6 (witness): appending `A` then `B` and reading the resource
yields exactly `A`, a blank line, `B`. -/
theorem insights_roundtrip_witness :
    readResource "memo://insights" (appendInsightSeq dbEmpty ["A", "B"] initState)
      = .ok [{ uri := "memo://insights", mimeType := "text/plain",
               text := "A\n\nB" }] := by
  have h := insights_roundtrip dbEmpty ["A", "B"] initState rfl
  simpa using h

/-- Claim C7: publishing a broadcast message delivers exactly one frame
of it to every currently attached listener, in attachment order (the
delivery log is the attachment-ordered listener list), and a listener
attaching after the publish holds only the handshake frame, which is
never a frame of the published message. -/
theorem broadcast_fanout (h : Hub) (m : Json) :
    (h.publish m).1.listeners
        = h.listeners.map (fun l => { l with out := l.out ++ [sseFrame m] })
  ∧ (h.publish m).2 = h.listeners.map (fun l => (l.id, m))
  ∧ ((h.publish m).1.attach).1.listeners
        = (h.publish m).1.listeners
            ++ [{ id := h.nextId, out := [handshakeFrame] }]
  ∧ sseFrame m ∉ ([handshakeFrame] : List String) := by
  refine ⟨?_, ?_, ?_, ?_⟩
  · simp [Hub.publish, deliverAll_eq]
  · simp [Hub.publish, deliverAll_eq]
  · simp [Hub.attach, Hub.publish]
  · simp [sseFrame_ne_handshakeFrame m]

/-- Claim C8: `describe_table` executes exactly the introspection
template with the table name inserted verbatim — no quoting or
escaping — and on success returns one text block holding the
pretty-printed JSON array of the column descriptors the engine
returned. -/
theorem describe_table_interpolation (db : DbHandle) (st : ServerState) (t : String) :
    (dispatch db "describe_table" { table_name := some t } st).2.trace
        = st.trace ++ [.all ("PRAGMA table_info(" ++ t ++ ")")]
  ∧ (∀ cols, db.all ("PRAGMA table_info(" ++ t ++ ")") = .ok cols →
      (dispatch db "describe_table" { table_name := some t } st).1
        = .ok [.text (Json.stringifyPretty (Json.arr cols))]) := by
  constructor
  · cases hall : db.all ("PRAGMA table_info(" ++ t ++ ")") <;>
      simp [dispatch, describeTableSql, hall]
  · intro cols hall
    simp [dispatch, describeTableSql, hall]

/-- Claim C8 (witness): an adversarial table name is interpolated
verbatim into the executed statement, and the empty descriptor list
renders as the empty JSON array block. -/
theorem describe_table_interpolation_witness :
    (dispatch dbEmpty "describe_table" { table_name := some "t); DROP TABLE u; --" } initState).2.trace
        = [.all "PRAGMA table_info(t); DROP TABLE u; --)"]
  ∧ (dispatch dbEmpty "describe_table" { table_name := some "t); DROP TABLE u; --" } initState).1
        = .ok [.text (Json.stringifyPretty (Json.arr []))] := by
  refine ⟨?_, (describe_table_interpolation dbEmpty initState "t); DROP TABLE u; --").2 [] rfl⟩
  have h := (describe_table_interpolation dbEmpty initState "t); DROP TABLE u; --").1
  simpa using h

/-- Claim C9: with the database content unchanged (same handle, no
intervening mutation), dispatching `list_tables` twice returns the same
outcome both times, whatever arguments accompany the calls. -/
theorem list_tables_idempotent (db : DbHandle) (st : ServerState) (a1 a2 : ToolArgs) :
    (dispatch db "list_tables" a1 st).1
      = (dispatch db "list_tables" a2 (dispatch db "list_tables" a1 st).2).1 := by
  cases hall : db.all listTablesSql <;> simp [dispatch, hall]

/-- Claim C10: requesting the `mcp-demo` prompt with `topic` equal to
the empty string is rejected with the very same missing-required-
argument error as an absent `topic` (presence is decided by JavaScript
truthiness), and no prompt text is produced. -/
theorem prompt_empty_topic_rejected :
    getPrompt "mcp-demo" (some "")
        = .error (.invalidRequest "Missing required argument: topic")
  ∧ getPrompt "mcp-demo" none
        = .error (.invalidRequest "Missing required argument: topic")
  ∧ getPrompt "mcp-demo" (some "") = getPrompt "mcp-demo" none := by
  refine ⟨rfl, rfl, rfl⟩
